import Mathlib

/-!
Shallow embedding of the Clique proof-of-authority engine found in
`ethcore/src/engines/clique/mod.rs` (with parameters from `params.rs`).

Modelling conventions:
* Byte strings are `List Nat`; an `Address` is a 20-byte list, a `Public`
  key a byte list.
* Machine integers (`u64`, `usize`) are `Nat`; every place where the Rust
  code can abort (an `unwrap`, an out-of-range slice, a `usize`
  subtraction underflow, an out-of-bounds index, a modulo by zero) is made
  explicit by returning `Option.none`, so `Option.none` everywhere below
  means "the Rust code aborts at runtime" while `Option.some r` means the
  function returns the value `r`.
* The external cryptographic collaborators (`keccak(rlp::encode(..))` from
  the `hash`/`rlp` crates, `ec_recover` from `ethkey`) are not part of this
  repository: they are passed in as abstract function parameters
  (`encodeHash`, `ecRecover`), with `ecRecover` returning `Option.none`
  exactly when the Rust call returns `Err` (malformed curve point).
* The engine fields that are pure IO plumbing (`client`, `machine`,
  `step_service`) play no role in any verification or sealing decision in
  the source and are omitted from the state record.
-/

/-- A raw byte string (each entry one byte). -/
abbrev Bytes := List Nat

/-- A 20-byte account address, as a byte list. -/
abbrev Address := List Nat

/-- `SIGNER_VANITY_LENGTH`: extra-data prefix bytes reserved for vanity. -/
def SIGNER_VANITY_LENGTH : Nat := 32

/-- `SIGNER_SIG_LENGTH`: extra-data suffix bytes reserved for the seal. -/
def SIGNER_SIG_LENGTH : Nat := 65

/-- `NONCE_DROP_VOTE`: the all-zero 8-byte nonce. -/
def NONCE_DROP_VOTE : Bytes := List.replicate 8 0

/-- `NONCE_AUTH_VOTE`: the `[0xf; 8]` nonce constant from the source. -/
def NONCE_AUTH_VOTE : Bytes := List.replicate 8 0xf

/-- The zero address `[0; 20]` that checkpoint authors are compared to. -/
def zeroAddress : Address := List.replicate 20 0

/-- The block header fields the Clique engine reads.  Each seal field is a
stored RLP blob; we record for each whether it decodes as a byte string
(`Option.some bytes`) or not (`Option.none`), which is all
`decode_seal::<Vec<&[u8]>>` distinguishes. -/
structure Header where
  number : Nat
  author : Address
  difficulty : Nat
  extra_data : Bytes
  sealFields : List (Option Bytes)
deriving Repr, DecidableEq

/-- `Header::decode_seal::<Vec<&[u8]>>`: decode every stored seal field as a
byte string; the whole call fails (`Option.none`, the Rust `Err`) if any
single field fails to decode. -/
def decodeSealItems : List (Option Bytes) → Option (List Bytes)
  | [] => Option.some []
  | Option.none :: _ => Option.none
  | Option.some b :: rest =>
    match decodeSealItems rest with
    | Option.none => Option.none
    | Option.some bs => Option.some (b :: bs)

/-- The seal-decoding call made by `verify_block_basic`. -/
def decode_seal (h : Header) : Option (List Bytes) :=
  decodeSealItems h.sealFields

/-- The local signing identity held behind `RwLock<EngineSigner>`: the
configured address, if `set_signer` has been called.  `is_address` is the
runtime-checked "is this address mine" query the engine uses. -/
structure EngineSigner where
  address : Option Address
deriving Repr, DecidableEq

/-- `EngineSigner::is_address`: whether `a` is the configured local address. -/
def EngineSigner.is_address (s : EngineSigner) (a : Address) : Bool :=
  s.address == Option.some a

/-- The `Clique` engine state (the fields consulted by the functions
modelled here; the IO-only fields `client`, `machine`, `step_service` are
omitted). -/
structure Clique where
  signer : EngineSigner
  signers : List Address
  epoch_length : Nat
  period : Nat
deriving Repr, DecidableEq

/-- The `Seal` result of `generate_seal`: either no seal, or a list of
regular seal fields (byte strings). -/
inductive Seal where
  | None : Seal
  | Regular : List Bytes → Seal
deriving Repr, DecidableEq

/-- `sig_hash(header)`: hash of the header with the trailing
`SIGNER_SIG_LENGTH` bytes of `extra_data` removed — but only when
`extra_data.len() >= SIGNER_VANITY_LENGTH`; otherwise the header is hashed
unmodified.  `encodeHash` stands for the external
`keccak(rlp::encode(..))`.  When `SIGNER_VANITY_LENGTH <= len <
SIGNER_SIG_LENGTH`, the slice bound `extra_data.len() - SIGNER_SIG_LENGTH`
underflows `usize` and the Rust code aborts: that is the `Option.none`
branch. -/
def sig_hash (encodeHash : Header → Nat) (h : Header) :
    Option (Except String Nat) :=
  if SIGNER_VANITY_LENGTH ≤ h.extra_data.length then
    if SIGNER_SIG_LENGTH ≤ h.extra_data.length then
      Option.some (Except.ok (encodeHash
        { h with extra_data :=
            h.extra_data.take (h.extra_data.length - SIGNER_SIG_LENGTH) }))
    else
      Option.none
  else
    Option.some (Except.ok (encodeHash h))

/-- `recover(header)`: copy the trailing 65 extra-data bytes as the
signature (the slice start `data.len() - SIGNER_SIG_LENGTH` underflows and
aborts when the extra data is shorter than 65 bytes), then `unwrap` the
`sig_hash` and `unwrap` the external `ec_recover` — both `unwrap`s abort
instead of returning an error (`Option.none` branches). -/
def recover (encodeHash : Header → Nat)
    (ecRecover : Bytes → Nat → Option Bytes) (h : Header) :
    Option (Except String Bytes) :=
  if SIGNER_SIG_LENGTH ≤ h.extra_data.length then
    let sig := h.extra_data.drop (h.extra_data.length - SIGNER_SIG_LENGTH)
    match sig_hash encodeHash h with
    | Option.none => Option.none
    | Option.some (Except.error _) => Option.none
    | Option.some (Except.ok msg) =>
      match ecRecover sig msg with
      | Option.none => Option.none
      | Option.some pubkey => Option.some (Except.ok pubkey)
  else
    Option.none

/-- `verify_block_basic`: on checkpoint blocks
(`number % epoch_length == 0`; the Rust modulo aborts when
`epoch_length = 0`) it rejects a nonzero author, then `unwrap`s the seal
decoding and indexes element `1` (both abort on failure) and rejects a
nonce different from `NONCE_DROP_VOTE`.  Every non-checkpoint header is
accepted (the extra-data length check is only a TODO comment in the
source). -/
def verify_block_basic (c : Clique) (h : Header) :
    Option (Except String Unit) :=
  if c.epoch_length = 0 then
    Option.none
  else if h.number % c.epoch_length = 0 then
    if h.author ≠ zeroAddress then
      Option.some (Except.error
        "Checkpoint blocks need to enforce zero beneficiary")
    else
      match decode_seal h with
      | Option.none => Option.none
      | Option.some fields =>
        match fields[1]? with
        | Option.none => Option.none
        | Option.some nonce =>
          if nonce ≠ NONCE_DROP_VOTE then
            Option.some (Except.error
              "Seal nonce zeros enforced on checkpoints")
          else
            Option.some (Except.ok ())
  else
    Option.some (Except.ok ())

/-- `verify_block_unordered`: the body is four TODO comments and
`Ok(())` — every header is accepted unconditionally. -/
def verify_block_unordered (c : Clique) (h : Header) : Except String Unit :=
  Except.ok ()

/-- The `authorized` local binding inside `generate_seal`: position of the
first signer-list entry matching the configured local address, and the
check `number % (pos + 1) == 0`. -/
def clique_authorized (c : Clique) (number : Nat) : Bool :=
  match c.signers.findIdx? (fun x => c.signer.is_address x) with
  | Option.some pos => number % (pos + 1) == 0
  | Option.none => false

/-- `generate_seal`: refuse to seal block 0, otherwise return the
placeholder seal `vec![vec![0,1,2], vec![0,1,2]]` exactly when
`clique_authorized` holds. -/
def generate_seal (c : Clique) (number : Nat) : Seal :=
  if number = 0 then Seal.None
  else if clique_authorized c number then
    Seal.Regular [[0, 1, 2], [0, 1, 2]]
  else
    Seal.None

/-- `seals_internally`: the source returns `Some(true)` unconditionally
(the commented-out line consulting the configured signer is dead code). -/
def seals_internally (c : Clique) : Option Bool :=
  Option.some true

/-- Concrete engine used to instantiate the checkpoint-rejection theorem:
epoch 30, period 15, no local signer configured. -/
def cliqueEpoch30 : Clique :=
  { signer := { address := Option.none }, signers := []
    epoch_length := 30, period := 15 }

/-- A checkpoint header (number 30) with a nonzero beneficiary. -/
def headerBadAuthor : Header :=
  { number := 30, author := 1 :: List.replicate 19 0, difficulty := 2
    extra_data := List.replicate 97 0
    sealFields := [Option.some [], Option.some NONCE_DROP_VOTE] }

/-- Concrete engine with epoch 1, used for the seal-decoding abort
theorem. -/
def cliqueEpoch1 : Clique :=
  { signer := { address := Option.none }, signers := []
    epoch_length := 1, period := 15 }

/-- A checkpoint header with zero author whose seal has fewer than two
fields. -/
def headerShortSeal : Header :=
  { number := 2, author := zeroAddress, difficulty := 2
    extra_data := List.replicate 97 0, sealFields := [] }

/-- Engine whose two-entry signer list has the configured local signer at
index 1, used to instantiate the authorization characterisation. -/
def cliqueTwoSigners : Clique :=
  { signer := { address := Option.some [2] }, signers := [[1], [2]]
    epoch_length := 30, period := 15 }

/-- Engine whose signer list contains the configured local signer at
index 0 (the always-authorized case of `generate_seal`). -/
def cliqueSelfSigner : Clique :=
  { signer := { address := Option.some [1] }, signers := [[1]]
    epoch_length := 30, period := 15 }

theorem clique_authorized_iff (c : Clique) (n : Nat) :
    clique_authorized c n = true ↔
      ∃ pos, c.signers.findIdx? (fun x => c.signer.is_address x) =
          Option.some pos ∧ n % (pos + 1) = 0 := by
  unfold clique_authorized
  cases hfind : c.signers.findIdx? (fun x => c.signer.is_address x) with
  | none => simp
  | some pos =>
    simp only [beq_iff_eq, Option.some.injEq]
    constructor
    · intro hmod
      exact ⟨pos, rfl, hmod⟩
    · rintro ⟨pos2, hp, hm⟩
      cases hp
      exact hm

/-- Claim C1: the specification requires `verify_block_unordered` to
recompute the sealing signer from the parent snapshot and reject a header
whose difficulty does not match its turn-ness with `DifficultyMismatch`.
The source function is an unimplemented stub that accepts every header —
in particular the out-of-turn difficulty-2 header of the scenario — so no
`DifficultyMismatch` rejection ever happens. -/
theorem verify_block_unordered_accepts_everything (c : Clique) (h : Header) :
    verify_block_unordered c h = Except.ok () := rfl

/-- Claim C2: the specification requires signer recovery to surface
`MalformedExtraData` (extra data shorter than 65 bytes) and
`InvalidSignature` (curve recovery failure) as error values and never
abort.  In the source both failure paths abort: a short extra-data slice
underflows before any error can be built, and a failed `ec_recover` is
`unwrap`ped.  Both conjuncts exhibit the abort (`Option.none`), the first
with empty extra data, the second with 97 bytes of extra data and a
recovery function that fails. -/
theorem recover_aborts_on_failure (encodeHash : Header → Nat) :
    recover encodeHash (fun _ _ => Option.none)
        { number := 1, author := zeroAddress, difficulty := 2
          extra_data := [], sealFields := [] } = Option.none
    ∧ recover encodeHash (fun _ _ => Option.none)
        { number := 1, author := zeroAddress, difficulty := 2
          extra_data := List.replicate 97 0, sealFields := [] } = Option.none := by
  constructor <;> rfl

/-- Claim C3: the specification requires `sig_hash` to be total, never
aborting, for every extra-data length including the range 32 to 96.  The
source guards the truncation with `len >= SIGNER_VANITY_LENGTH` (32) but
subtracts `SIGNER_SIG_LENGTH` (65), so every length in `[32, 64]` makes
the `usize` subtraction underflow and the code abort; extra data of
exactly 32 bytes is such a failing input. -/
theorem sig_hash_aborts_at_length_32 (encodeHash : Header → Nat) :
    sig_hash encodeHash
        { number := 1, author := zeroAddress, difficulty := 2
          extra_data := List.replicate 32 0, sealFields := [] } = Option.none := by
  rfl

/-- Claim C4: on a checkpoint header (`number % epoch_length = 0`, with a
positive configured epoch), `verify_block_basic` returns an error value
whenever the author is nonzero, or the decoded seal nonce (field 1)
differs from the all-zero `NONCE_DROP_VOTE`; and the function consults no
snapshot (no snapshot machinery exists in the embedded state at all). -/
theorem verify_block_basic_checkpoint_rejects (c : Clique) (h : Header)
    (hep : 0 < c.epoch_length) (hck : h.number % c.epoch_length = 0)
    (hbad : h.author ≠ zeroAddress ∨
      ∃ fields nonce, decode_seal h = Option.some fields ∧
        fields[1]? = Option.some nonce ∧ nonce ≠ NONCE_DROP_VOTE) :
    ∃ e, verify_block_basic c h = Option.some (Except.error e) := by
  have h0 : ¬ c.epoch_length = 0 := by omega
  rcases hbad with hne | ⟨fields, nonce, hdec, hget, hnz⟩
  · exact ⟨"Checkpoint blocks need to enforce zero beneficiary",
      by simp [verify_block_basic, h0, hck, hne]⟩
  · by_cases ha : h.author = zeroAddress
    · exact ⟨"Seal nonce zeros enforced on checkpoints",
        by simp [verify_block_basic, h0, hck, ha, hdec, hget, hnz]⟩
    · exact ⟨"Checkpoint blocks need to enforce zero beneficiary",
        by simp [verify_block_basic, h0, hck, ha]⟩

theorem verify_block_basic_checkpoint_rejects_witness :
    ∃ e, verify_block_basic cliqueEpoch30 headerBadAuthor =
      Option.some (Except.error e) :=
  verify_block_basic_checkpoint_rejects cliqueEpoch30 headerBadAuthor
    (by decide) (by decide) (Or.inl (by decide))

/-- Claim C5: the specification requires `verify_block_basic` to reject
every header whose extra data is shorter than `32 + 65 = 97` bytes, as a
structural check independent of ancestry.  The source performs no
extra-data length check at all (it is only a TODO comment): a
non-checkpoint header with empty extra data is accepted. -/
theorem verify_block_basic_ignores_extra_data_length :
    verify_block_basic cliqueEpoch30
        { number := 1, author := zeroAddress, difficulty := 2
          extra_data := [], sealFields := [] } =
      Option.some (Except.ok ()) := by
  rfl

/-- Claim C6: the specification requires the generated seal to be a
signature over the seal hash by the local key, so that extracting and
recovering it yields the local signing address.  The source never signs:
whenever it deems itself authorized it returns the hard-coded placeholder
`Seal::Regular(vec![vec![0,1,2], vec![0,1,2]])` (and `on_close_block`
never embeds anything into the extra data), so the round-trip property
fails for every sealed block; this theorem evaluates the code at an
authorized sealing attempt and exhibits the placeholder. -/
theorem generate_seal_returns_placeholder :
    generate_seal cliqueSelfSigner 1 = Seal.Regular [[0, 1, 2], [0, 1, 2]] := by
  rfl

/-- Claim C7: `generate_seal` refuses to seal the genesis block — for
block number 0 it returns `Seal.None` whatever the engine state
(configured signer and signer list included). -/
theorem generate_seal_refuses_genesis (c : Clique) :
    generate_seal c 0 = Seal.None := rfl

/-- Claim C8: for every block number at least 1, `generate_seal` produces
a seal exactly when the configured local signer occurs at the first
matching index `pos` of the static signer list and
`number % (pos + 1) = 0` (no snapshot or recent-signer state exists to be
consulted); in particular a local signer found at index 0 is authorized
for every such block number. -/
theorem generate_seal_authorization (c : Clique) (n : Nat) (hn : 1 ≤ n) :
    (generate_seal c n = Seal.Regular [[0, 1, 2], [0, 1, 2]] ↔
      ∃ pos, c.signers.findIdx? (fun x => c.signer.is_address x) =
          Option.some pos ∧ n % (pos + 1) = 0)
    ∧ (c.signers.findIdx? (fun x => c.signer.is_address x) =
          Option.some 0 →
        generate_seal c n = Seal.Regular [[0, 1, 2], [0, 1, 2]]) := by
  have hn0 : ¬ n = 0 := by omega
  have hgs : generate_seal c n =
      if clique_authorized c n then Seal.Regular [[0, 1, 2], [0, 1, 2]]
      else Seal.None := by
    unfold generate_seal
    rw [if_neg hn0]
  constructor
  · rw [hgs]
    by_cases hauth : clique_authorized c n
    · rw [if_pos hauth]
      exact iff_of_true rfl ((clique_authorized_iff c n).mp hauth)
    · rw [if_neg hauth]
      constructor
      · intro hcontra
        exact Seal.noConfusion hcontra
      · intro hex
        exact absurd ((clique_authorized_iff c n).mpr hex) hauth
  · intro hfind
    rw [hgs, if_pos ((clique_authorized_iff c n).mpr
      ⟨0, hfind, Nat.mod_one n⟩)]

theorem generate_seal_authorization_witness :
    (generate_seal cliqueTwoSigners 2 = Seal.Regular [[0, 1, 2], [0, 1, 2]] ↔
      ∃ pos, cliqueTwoSigners.signers.findIdx?
          (fun x => cliqueTwoSigners.signer.is_address x) =
          Option.some pos ∧ 2 % (pos + 1) = 0)
    ∧ (cliqueTwoSigners.signers.findIdx?
          (fun x => cliqueTwoSigners.signer.is_address x) =
          Option.some 0 →
        generate_seal cliqueTwoSigners 2 =
          Seal.Regular [[0, 1, 2], [0, 1, 2]]) :=
  generate_seal_authorization cliqueTwoSigners 2 (by decide)

/-- Claim C9: on a checkpoint header with zero author whose seal fields do
not decode as a list of at least two byte strings, `verify_block_basic`
aborts (`unwrap` of `decode_seal` followed by indexing element 1) instead
of returning an error: the embedded function yields `Option.none`. -/
theorem verify_block_basic_checkpoint_seal_aborts (c : Clique) (h : Header)
    (hep : 0 < c.epoch_length) (hck : h.number % c.epoch_length = 0)
    (hz : h.author = zeroAddress)
    (hbad : decode_seal h = Option.none ∨
      ∃ fields, decode_seal h = Option.some fields ∧
        fields[1]? = Option.none) :
    verify_block_basic c h = Option.none := by
  have h0 : ¬ c.epoch_length = 0 := by omega
  rcases hbad with hdec | ⟨fields, hdec, hget⟩
  · simp [verify_block_basic, h0, hck, hz, hdec]
  · simp [verify_block_basic, h0, hck, hz, hdec, hget]

theorem verify_block_basic_checkpoint_seal_aborts_witness :
    verify_block_basic cliqueEpoch1 headerShortSeal = Option.none :=
  verify_block_basic_checkpoint_seal_aborts cliqueEpoch1 headerShortSeal
    (by decide) (by decide) (by decide)
    (Or.inr ⟨[], by decide, by decide⟩)

/-- Claim C10: `seals_internally` returns `Option.some true` in every
engine state, including states where no local signer has ever been
configured (`address = Option.none`). -/
theorem seals_internally_always_prime (c : Clique) :
    seals_internally c = Option.some true := rfl
